import Mathlib

/-!
Verification of the orchestration gateway in `main.py` (Gemini + FastAPI + S2
tool integration).  The Python request handler `process_request` is embedded
shallowly: external collaborators (the Gemini model client and the S2
tool-execution service) become oracle functions supplied in a `World`, process
configuration (`JWT_SECRET`, `S2_BASE_URL`, the current epoch second) becomes
an explicit `Env`, and the observable effects of one request (session
creation, model calls, credential issuance, the HTTP POST to S2) are recorded
in an event trace returned next to the handler result.
-/

/-- JSON values, used for tool-call arguments, tool-service response bodies
and response fields.  Numbers are modelled as integers (no claim involves
fractional payloads). -/
inductive Json where
  | null
  | bool (b : Bool)
  | num (n : Int)
  | str (s : String)
  | arr (xs : List Json)
  | obj (fields : List (String × Json))
deriving Repr

/-- Lookup of a key in a parsed JSON object, as Python dict access does
(object keys are unique in a parsed JSON document, so first match suffices). -/
def jlookup (k : String) : List (String × Json) → Option Json
  | [] => none
  | (k2, v) :: rest => if k2 = k then some v else jlookup k rest

mutual

/-- Rendering of a parsed JSON value the way the Python `repr` of the
corresponding Python object prints it (dict/list rendering with quoted
strings); used for nested values interpolated into f-strings. -/
def pyRepr : Json → String
  | .null => "None"
  | .bool true => "True"
  | .bool false => "False"
  | .num n => toString n
  | .str s => "\x27" ++ s ++ "\x27"
  | .arr xs => "[" ++ pyReprArr xs ++ "]"
  | .obj o => "\x7b" ++ pyReprObj o ++ "\x7d"

/-- Comma-separated rendering of the elements of a Python list. -/
def pyReprArr : List Json → String
  | [] => ""
  | [x] => pyRepr x
  | x :: rest => pyRepr x ++ ", " ++ pyReprArr rest

/-- Comma-separated rendering of the entries of a Python dict. -/
def pyReprObj : List (String × Json) → String
  | [] => ""
  | [(k, v)] => "\x27" ++ k ++ "\x27: " ++ pyRepr v
  | (k, v) :: rest => "\x27" ++ k ++ "\x27: " ++ pyRepr v ++ ", " ++ pyReprObj rest

end

/-- Python `str()` of a parsed JSON value, as an f-string interpolates it:
a string renders as itself, scalars as their Python literal, containers via
`pyRepr`. -/
def pyStr : Json → String
  | .str s => s
  | j => pyRepr j

/-- Truthiness of an optional environment-variable string: Python
`if not X` is taken for `X = None` (variable unset) and for the empty
string. -/
def falsy : Option String → Bool
  | none => true
  | some s => s == ""

/-- Parameter schema of a function declaration (the OpenAPI subset used by
the source: an OBJECT schema with named STRING properties and a `required`
list, or a STRING leaf carrying a description). -/
inductive Schema where
  | objectSchema (properties : List (String × Schema)) (required : List String)
  | stringSchema (description : String)

/-- `types.FunctionDeclaration`: one invocable capability advertised to the
model. -/
structure FunctionDeclaration where
  name : String
  description : String
  parameters : Schema

/-- `types.Tool`: a bundle of function declarations. -/
structure Tool where
  function_declarations : List FunctionDeclaration

/-- `FUNCTION_DECLARATIONS` from `main.py`: the static two-entry catalog. -/
def FUNCTION_DECLARATIONS : List FunctionDeclaration :=
  [ { name := "get_google_calendar_events"
    , description := "查询 Google Calendar 以获取特定日期（例如今天或明天）的用户会议和日程安排。"
    , parameters := Schema.objectSchema
        [("date", Schema.stringSchema "要查询的日期，格式 YYYY-MM-DD 或 \"today\", \"tomorrow\"")]
        ["date"] }
  , { name := "search_the_web"
    , description := "使用 Brave Search（或任何通用搜索引擎）查询最新的公开信息。"
    , parameters := Schema.objectSchema
        [("query", Schema.stringSchema "要搜索的查询字符串")]
        ["query"] }
  ]

/-- `TOOLS` from `main.py`. -/
def TOOLS : List Tool := [{ function_declarations := FUNCTION_DECLARATIONS }]

/-- One content part of a conversation turn (`types.ContentPart`). -/
inductive ContentPart where
  | text (t : String)
  | functionCall (name : String) (args : List (String × Json))
  | functionResponse (name : String) (response : Json)

/-- One conversation turn (`types.Content`): a role tag and content parts. -/
structure Content where
  role : String
  parts : List ContentPart

/-- A function call proposed by the model (`resp.function_calls[i]`);
`args` is the mapping the SDK exposes, already converted to a plain
association list as `dict(fc.args)` does. -/
structure FunctionCall where
  name : String
  args : List (String × Json)

/-- The parts of a `generate_content` response that `main.py` reads:
`response.function_calls` (empty list standing for none proposed),
`response.candidates` (list of candidate contents, index 0 used), and
`response.text` (absent modelled as `none`, matching
`getattr(resp, "text", None)`). -/
structure ModelResp where
  function_calls : List FunctionCall
  candidates : List Content
  text : Option String

/-- The parts of the S2 HTTP response that `main.py` reads: the status code,
the parsed JSON body when the body parses (`none` when `.json()` would
raise), and the raw body text. -/
structure S2Response where
  status_code : Nat
  jsonBody : Option Json
  text : String

/-- The request body model (`class UserRequest(BaseModel)`): a single
required string field `user_prompt`, with no length constraint declared. -/
structure UserRequest where
  user_prompt : String

/-- Process-wide configuration read from the environment, plus the epoch
second `int(time.time())` observed while handling the request. -/
structure Env where
  jwtSecret : Option String
  s2BaseUrl : Option String
  now : Nat

/-- The claims of the signed token`\x7bsession_id, exp, iat\x7d`. -/
structure JwtPayload where
  session_id : String
  exp : Nat
  iat : Nat

/-- A signed token, modelled symbolically: `jwt.encode(payload, secret,
algorithm="HS256")` is an injective encoding of the payload signed with
HMAC-SHA256 over the secret, so the token is represented by the data the
encoding commits to. -/
structure Token where
  payload : JwtPayload
  secret : String
  alg : String

/-- `create_short_lived_jwt` from `main.py`: fails when `JWT_SECRET` is
unset (or empty, both falsy in Python), else signs
`\x7bsession_id, exp: now+60, iat: now\x7d` with HS256.  The global
`JWT_SECRET` and the call to `time.time()` are passed explicitly. -/
def create_short_lived_jwt (secret : Option String) (now : Nat) (session_id : String) :
    Except String Token :=
  if falsy secret then .error "JWT_SECRET is not configured."
  else .ok { payload := { session_id := session_id, exp := now + 60, iat := now }
           , secret := secret.getD ""
           , alg := "HS256" }

/-- Best-effort detail extraction from a failed S2 response, translating
`e.response.json().get("detail", e.response.text)` with the surrounding
`try/except` fallback to `e.response.text`: a parsed JSON object with a
`detail` field yields that field (interpolated via Python `str()`), anything
else (unparseable body, non-object body, missing field) the raw text. -/
def extractDetail (r : S2Response) : String :=
  match r.jsonBody with
  | some (Json.obj o) =>
    match jlookup "detail" o with
    | some v => pyStr v
    | none => r.text
  | _ => r.text

/-- Observable effects of one request, in the order they occur in
`process_request`. -/
inductive Event where
  | sessionCreate (session_id : String)
  | firstModelCall (prompt : String) (tools : List Tool)
  | credentialIssue (session_id : String)
  | toolServiceCall (tool_name : String) (arguments : List (String × Json)) (token : Token)
  | followupModelCall (contents : List Content) (tools : List Tool)

/-- Oracles for the external collaborators: the first `generate_content`
call (prompt with tools attached), the follow-up `generate_content` call
(contents list, no tools), and the S2 tool-execution POST (authorization
token, tool name, arguments).  `.error` stands for a raised network or
provider exception with its message. -/
structure World where
  model1 : String → Except String ModelResp
  model2 : List Content → Except String ModelResp
  s2 : Token → String → List (String × Json) → Except String S2Response

/-- A FastAPI `HTTPException`. -/
structure HTTPEx where
  status_code : Nat
  detail : String

/-- The JSON object returned on success; `tool_result = none` means the key
is absent from the returned dict (the direct-answer branch), while
`some Json.null` is the key present with value `None`. -/
structure ApiResponse where
  message : String
  action : String
  tool_result : Option Json
  llm_result : Option String

/-- The `followup_contents` list built in `main.py` lines 126-140: original
user prompt, the model turn verbatim, and a function-response part tagged
with the invoked function name wrapping `\x7b"result": tool_result\x7d`. -/
def followup_contents (user_prompt : String) (prior : Content)
    (func_name : String) (tool_result : Json) : List Content :=
  [ { role := "user", parts := [ContentPart.text user_prompt] }
  , prior
  , { role := "user"
    , parts := [ContentPart.functionResponse func_name (Json.obj [("result", tool_result)])] } ]

/-- The `/api/process` handler `process_request` from `main.py`, returning
the FastAPI outcome (success body or `HTTPException`) together with the
trace of observable effects.  Branching follows the source line by line:
the `S2_BASE_URL` guard, session creation, the first model call, the
tool-call branch on `resp.function_calls`, JWT creation, the S2 POST with
`raise_for_status` (which raises exactly for 400-599) and
`.json().get("result")`, the follow-up model call with no tools, and the
two `except` handlers (a `requests.HTTPError` keeps the upstream status, any
other exception becomes a 500 carrying the exception message). -/
def process_request (env : Env) (w : World) (request : UserRequest) :
    Except HTTPEx ApiResponse × List Event :=
  if falsy env.s2BaseUrl then
    (.error { status_code := 500
            , detail := "Server configuration is incomplete (S2_BASE_URL)." }, [])
  else
    let session_id := "session-" ++ toString env.now
    let evs1 := [Event.sessionCreate session_id,
                 Event.firstModelCall request.user_prompt TOOLS]
    match w.model1 request.user_prompt with
    | .error e =>
      (.error { status_code := 500, detail := "Internal Server Error: " ++ e }, evs1)
    | .ok resp =>
      match resp.function_calls with
      | [] =>
        (.ok { message := "Answer provided directly by LLM."
             , action := "Direct LLM Response"
             , tool_result := none
             , llm_result := resp.text }, evs1)
      | fc :: _ =>
        let func_name := fc.name
        let func_args := fc.args
        let evs2 := evs1 ++ [Event.credentialIssue session_id]
        match create_short_lived_jwt env.jwtSecret env.now session_id with
        | .error msg =>
          (.error { status_code := 500, detail := "Internal Server Error: " ++ msg }, evs2)
        | .ok jwt_token =>
          let evs3 := evs2 ++ [Event.toolServiceCall func_name func_args jwt_token]
          match w.s2 jwt_token func_name func_args with
          | .error e =>
            (.error { status_code := 500, detail := "Internal Server Error: " ++ e }, evs3)
          | .ok s2_response =>
            if 400 ≤ s2_response.status_code ∧ s2_response.status_code < 600 then
              (.error { status_code := s2_response.status_code
                      , detail := "Error communicating with MCP server (S2): "
                                  ++ extractDetail s2_response }, evs3)
            else
              match s2_response.jsonBody with
              | some (Json.obj o) =>
                let tool_result := (jlookup "result" o).getD Json.null
                match resp.candidates.head? with
                | none =>
                  (.error { status_code := 500
                          , detail := "Internal Server Error: list index out of range" }, evs3)
                | some prior =>
                  let contents := followup_contents request.user_prompt prior func_name tool_result
                  let evs4 := evs3 ++ [Event.followupModelCall contents []]
                  match w.model2 contents with
                  | .error e =>
                    (.error { status_code := 500
                            , detail := "Internal Server Error: " ++ e }, evs4)
                  | .ok resp2 =>
                    (.ok { message := "Tool executed via S2, final answer generated by LLM."
                         , action := "Called S2 for tool: " ++ func_name
                         , tool_result := some tool_result
                         , llm_result := resp2.text }, evs4)
              | _ =>
                (.error { status_code := 500
                        , detail := "Internal Server Error: invalid JSON body from S2" }, evs3)

/-- FastAPI body validation for `UserRequest` (pydantic): the body must be a
JSON object whose `user_prompt` key holds a string; a missing key, a
non-string value or a non-object body is rejected with a 422 validation
error before the handler runs.  No non-empty constraint is declared on the
field. -/
def parseUserRequest (body : Json) : Except HTTPEx UserRequest :=
  match body with
  | Json.obj o =>
    match jlookup "user_prompt" o with
    | some (Json.str s) => .ok { user_prompt := s }
    | _ => .error { status_code := 422, detail := "Field required: user_prompt (string)" }
  | _ => .error { status_code := 422, detail := "Field required: user_prompt (string)" }

/-- The full inbound `POST /api/process` path: framework validation of the
raw JSON body, then the handler.  A validation failure produces no events
(the handler never runs). -/
def handle_api_process (env : Env) (w : World) (body : Json) :
    Except HTTPEx ApiResponse × List Event :=
  match parseUserRequest body with
  | .error e => (.error e, [])
  | .ok req => process_request env w req

/-- Predicate picking the S2 tool-service POST out of a trace. -/
def isS2Call : Event → Bool
  | .toolServiceCall _ _ _ => true
  | _ => false

/-- The S2 tool-service POSTs of a trace. -/
def s2Calls (evs : List Event) : List Event := evs.filter isS2Call

/-- The extraction policy the spec states for a failed S2 response, written
from the spec words for comparison with `extractDetail` (structured `detail`
field first, raw body text as fallback). -/
def detail_policy (r : S2Response) : Prop :=
  match r.jsonBody with
  | some (Json.obj o) =>
    match jlookup "detail" o with
    | some v => extractDetail r = pyStr v
    | none => extractDetail r = r.text
  | _ => extractDetail r = r.text

/-- A fully configured environment (secret and base URL set), handling a
request at epoch second 100. -/
def envOk : Env := { jwtSecret := some "topsecret", s2BaseUrl := some "http://s2.local", now := 100 }

/-- The calendar tool call of spec Scenario A. -/
def fcCal : FunctionCall :=
  { name := "get_google_calendar_events", args := [("date", Json.str "tomorrow")] }

/-- A first model turn proposing the calendar tool call. -/
def respToolTurn : ModelResp :=
  { function_calls := [fcCal]
  , candidates := [{ role := "model"
                   , parts := [ContentPart.functionCall "get_google_calendar_events"
                                 [("date", Json.str "tomorrow")]] }]
  , text := none }

/-- A first model turn answering directly (spec Scenario B). -/
def respDirectTurn : ModelResp :=
  { function_calls := []
  , candidates := [{ role := "model", parts := [ContentPart.text "4"] }]
  , text := some "4" }

/-- A follow-up model turn synthesizing the final answer. -/
def respFinalTurn : ModelResp :=
  { function_calls := []
  , candidates := [{ role := "model", parts := [ContentPart.text "You have Standup at 9am."] }]
  , text := some "You have Standup at 9am." }

/-- A successful S2 response carrying a result (spec Scenario A). -/
def s2Ok : S2Response :=
  { status_code := 200
  , jsonBody := some (Json.obj
      [("result", Json.obj [("events", Json.arr [Json.str "Standup at 9am"])])])
  , text := "ok" }

/-- A successful S2 response whose body lacks a result field. -/
def s2NoResult : S2Response :=
  { status_code := 200, jsonBody := some (Json.obj [("status", Json.str "ok")]), text := "ok" }

/-- The failing S2 response of spec Scenario C. -/
def s2Err503 : S2Response :=
  { status_code := 503
  , jsonBody := some (Json.obj [("detail", Json.str "service unavailable")])
  , text := "raw body" }

/-- World for the tool-mediated happy path. -/
def wTool : World :=
  { model1 := fun _ => .ok respToolTurn
  , model2 := fun _ => .ok respFinalTurn
  , s2 := fun _ _ _ => .ok s2Ok }

/-- World where the model answers directly. -/
def wDirect : World :=
  { model1 := fun _ => .ok respDirectTurn
  , model2 := fun _ => .ok respFinalTurn
  , s2 := fun _ _ _ => .ok s2Ok }

/-- World where S2 succeeds without a result field. -/
def wNoResult : World :=
  { model1 := fun _ => .ok respToolTurn
  , model2 := fun _ => .ok respFinalTurn
  , s2 := fun _ _ _ => .ok s2NoResult }

/-- World where S2 fails with a 503. -/
def wErr503 : World :=
  { model1 := fun _ => .ok respToolTurn
  , model2 := fun _ => .ok respFinalTurn
  , s2 := fun _ _ _ => .ok s2Err503 }

/-- Scenario A style request. -/
def reqCal : UserRequest := { user_prompt := "What is on my calendar tomorrow?" }

/-- Scenario B style request. -/
def reqMath : UserRequest := { user_prompt := "What is 2+2?" }


/-- Helper: with a configured (non-empty) secret, `create_short_lived_jwt`
succeeds and returns the HS256 token over exactly the three claims. -/
theorem create_short_lived_jwt_ok (s : String) (hs : s ≠ "") (now : Nat) (sid : String) :
    create_short_lived_jwt (some s) now sid
      = .ok { payload := { session_id := sid, exp := now + 60, iat := now }
            , secret := s, alg := "HS256" } := by
  simp [create_short_lived_jwt, falsy, hs]

/-- C1: when the first model turn proposes at least one tool call (the list
`fc :: rest`, any further proposed calls `rest` being dropped), the S2
tool-execution service is invoked exactly once, with the tool name and
arguments of the first proposed call, and the 200 response has
`action = "Called S2 for tool: " ++ fc.name` (which contains the tool name)
and `tool_result` equal to the result the service returned. -/
theorem c1_first_tool_call_honored
    (env : Env) (w : World) (req : UserRequest) (s : String)
    (resp : ModelResp) (fc : FunctionCall) (rest : List FunctionCall)
    (r : S2Response) (o : List (String × Json)) (c : Content) (cs : List Content)
    (resp2 : ModelResp)
    (hurl : falsy env.s2BaseUrl = false)
    (hsec : env.jwtSecret = some s) (hs : s ≠ "")
    (hm1 : w.model1 req.user_prompt = .ok resp)
    (hfc : resp.function_calls = fc :: rest)
    (hs2 : ∀ tok, w.s2 tok fc.name fc.args = .ok r)
    (hst : r.status_code < 400)
    (hjb : r.jsonBody = some (Json.obj o))
    (hcand : resp.candidates = c :: cs)
    (hm2 : ∀ contents, w.model2 contents = .ok resp2) :
    s2Calls (process_request env w req).2
      = [Event.toolServiceCall fc.name fc.args
          { payload := { session_id := "session-" ++ toString env.now
                       , exp := env.now + 60, iat := env.now }
          , secret := s, alg := "HS256" }]
    ∧ (process_request env w req).1
      = .ok { message := "Tool executed via S2, final answer generated by LLM."
            , action := "Called S2 for tool: " ++ fc.name
            , tool_result := some ((jlookup "result" o).getD Json.null)
            , llm_result := resp2.text } := by
  have hnot : ¬ (400 ≤ r.status_code ∧ r.status_code < 600) := by omega
  constructor <;>
    simp [process_request, s2Calls, isS2Call, hurl, hsec,
          create_short_lived_jwt_ok s hs, hm1, hfc, hs2, hnot, hjb, hcand, hm2]

/-- Witness for C1 at a concrete request: the calendar scenario with a
well-configured environment. -/
theorem c1_witness :
    s2Calls (process_request envOk wTool reqCal).2
      = [Event.toolServiceCall "get_google_calendar_events" [("date", Json.str "tomorrow")]
          { payload := { session_id := "session-100", exp := 160, iat := 100 }
          , secret := "topsecret", alg := "HS256" }]
    ∧ (process_request envOk wTool reqCal).1
      = .ok { message := "Tool executed via S2, final answer generated by LLM."
            , action := "Called S2 for tool: get_google_calendar_events"
            , tool_result := some (Json.obj [("events", Json.arr [Json.str "Standup at 9am"])])
            , llm_result := some "You have Standup at 9am." } :=
  c1_first_tool_call_honored envOk wTool reqCal "topsecret"
    respToolTurn fcCal [] s2Ok
    [("result", Json.obj [("events", Json.arr [Json.str "Standup at 9am"])])]
    { role := "model"
    , parts := [ContentPart.functionCall "get_google_calendar_events"
                  [("date", Json.str "tomorrow")]] } []
    respFinalTurn rfl rfl (by decide) rfl rfl (fun _ => rfl) (by decide) rfl rfl
    (fun _ => rfl)

/-- C2: when the first model turn proposes no tool call, the handler returns
200 with `action = "Direct LLM Response"`, `llm_result` the model's direct
text and no `tool_result` field, and the trace shows no credential issuance
and no call to the tool-execution service (it is exactly the session
creation and the first model call). -/
theorem c2_direct_response
    (env : Env) (w : World) (req : UserRequest) (resp : ModelResp)
    (hurl : falsy env.s2BaseUrl = false)
    (hm1 : w.model1 req.user_prompt = .ok resp)
    (hfc : resp.function_calls = []) :
    (process_request env w req).1
      = .ok { message := "Answer provided directly by LLM."
            , action := "Direct LLM Response"
            , tool_result := none
            , llm_result := resp.text }
    ∧ (process_request env w req).2
      = [Event.sessionCreate ("session-" ++ toString env.now),
         Event.firstModelCall req.user_prompt TOOLS] := by
  constructor <;> simp [process_request, hurl, hm1, hfc]

/-- Witness for C2: the direct-answer scenario at a concrete request. -/
theorem c2_witness :
    (process_request envOk wDirect reqMath).1
      = .ok { message := "Answer provided directly by LLM."
            , action := "Direct LLM Response"
            , tool_result := none
            , llm_result := some "4" }
    ∧ (process_request envOk wDirect reqMath).2
      = [Event.sessionCreate "session-100",
         Event.firstModelCall "What is 2+2?" TOOLS] :=
  c2_direct_response envOk wDirect reqMath respDirectTurn rfl rfl rfl

/-- Helper: `extractDetail` satisfies the extraction policy the spec states
(structured `detail` field first, raw body text as fallback). -/
theorem extractDetail_satisfies_policy (r : S2Response) : detail_policy r := by
  unfold detail_policy
  rcases h : r.jsonBody with _ | j
  · simp [extractDetail, h]
  · cases j <;> simp [extractDetail, h]
    rcases hl : jlookup "detail" _ with _ | v <;> simp [hl]

/-- C3: when S2 responds with a non-success status (400-599), the caller
receives that same status, with the detail message a fixed prefix followed
by `extractDetail r`, and `extractDetail` follows the claimed policy: the
structured `detail` field of a JSON-object body when present, the raw body
text otherwise. -/
theorem c3_tool_error_propagated
    (env : Env) (w : World) (req : UserRequest) (s : String)
    (resp : ModelResp) (fc : FunctionCall) (rest : List FunctionCall) (r : S2Response)
    (hurl : falsy env.s2BaseUrl = false)
    (hsec : env.jwtSecret = some s) (hs : s ≠ "")
    (hm1 : w.model1 req.user_prompt = .ok resp)
    (hfc : resp.function_calls = fc :: rest)
    (hs2 : ∀ tok, w.s2 tok fc.name fc.args = .ok r)
    (hst1 : 400 ≤ r.status_code) (hst2 : r.status_code < 600) :
    (process_request env w req).1
      = .error { status_code := r.status_code
               , detail := "Error communicating with MCP server (S2): " ++ extractDetail r }
    ∧ detail_policy r := by
  have hc : 400 ≤ r.status_code ∧ r.status_code < 600 := ⟨hst1, hst2⟩
  refine ⟨?_, extractDetail_satisfies_policy r⟩
  simp [process_request, hurl, hsec, create_short_lived_jwt_ok s hs, hm1, hfc, hs2, hc]

/-- Witness for C3: spec Scenario C, an upstream 503 whose body carries
`detail = "service unavailable"`; the caller gets a 503 whose detail
contains that string. -/
theorem c3_witness :
    (process_request envOk wErr503 reqCal).1
      = .error { status_code := 503
               , detail := "Error communicating with MCP server (S2): "
                           ++ extractDetail s2Err503 }
    ∧ detail_policy s2Err503 :=
  c3_tool_error_propagated envOk wErr503 reqCal "topsecret"
    respToolTurn fcCal [] s2Err503 rfl rfl (by decide) rfl rfl (fun _ => rfl)
    (by decide) (by decide)

/-- C4: on the tool-mediated path the follow-up model call receives exactly
three turns in order — the original user prompt as a user turn, the model's
prior turn content `c` verbatim, and a function-response turn tagged with
the invoked function's name — and is made with an empty tool list (the tool
catalog is not offered again).  The conclusion fixes the whole trace, whose
last event is that follow-up call. -/
theorem c4_followup_conversation
    (env : Env) (w : World) (req : UserRequest) (s : String)
    (resp : ModelResp) (fc : FunctionCall) (rest : List FunctionCall)
    (r : S2Response) (o : List (String × Json)) (c : Content) (cs : List Content)
    (hurl : falsy env.s2BaseUrl = false)
    (hsec : env.jwtSecret = some s) (hs : s ≠ "")
    (hm1 : w.model1 req.user_prompt = .ok resp)
    (hfc : resp.function_calls = fc :: rest)
    (hs2 : ∀ tok, w.s2 tok fc.name fc.args = .ok r)
    (hst : r.status_code < 400)
    (hjb : r.jsonBody = some (Json.obj o))
    (hcand : resp.candidates = c :: cs) :
    (process_request env w req).2
      = [Event.sessionCreate ("session-" ++ toString env.now),
         Event.firstModelCall req.user_prompt TOOLS,
         Event.credentialIssue ("session-" ++ toString env.now),
         Event.toolServiceCall fc.name fc.args
           { payload := { session_id := "session-" ++ toString env.now
                        , exp := env.now + 60, iat := env.now }
           , secret := s, alg := "HS256" },
         Event.followupModelCall
           [ { role := "user", parts := [ContentPart.text req.user_prompt] }
           , c
           , { role := "user"
             , parts := [ContentPart.functionResponse fc.name
                           (Json.obj [("result", (jlookup "result" o).getD Json.null)])] } ]
           [] ] := by
  have hnot : ¬ (400 ≤ r.status_code ∧ r.status_code < 600) := by omega
  simp [process_request, hurl, hsec, create_short_lived_jwt_ok s hs,
        hm1, hfc, hs2, hnot, hjb, hcand, followup_contents]
  split <;> simp

/-- Witness for C4: the calendar scenario; the three turns and the absent
tool catalog are explicit in the trace. -/
theorem c4_witness :
    (process_request envOk wTool reqCal).2
      = [Event.sessionCreate "session-100",
         Event.firstModelCall "What is on my calendar tomorrow?" TOOLS,
         Event.credentialIssue "session-100",
         Event.toolServiceCall "get_google_calendar_events" [("date", Json.str "tomorrow")]
           { payload := { session_id := "session-100", exp := 160, iat := 100 }
           , secret := "topsecret", alg := "HS256" },
         Event.followupModelCall
           [ { role := "user", parts := [ContentPart.text "What is on my calendar tomorrow?"] }
           , { role := "model"
             , parts := [ContentPart.functionCall "get_google_calendar_events"
                           [("date", Json.str "tomorrow")]] }
           , { role := "user"
             , parts := [ContentPart.functionResponse "get_google_calendar_events"
                           (Json.obj [("result",
                              Json.obj [("events", Json.arr [Json.str "Standup at 9am"])])])] } ]
           [] ] :=
  c4_followup_conversation envOk wTool reqCal "topsecret"
    respToolTurn fcCal [] s2Ok
    [("result", Json.obj [("events", Json.arr [Json.str "Standup at 9am"])])]
    { role := "model"
    , parts := [ContentPart.functionCall "get_google_calendar_events"
                  [("date", Json.str "tomorrow")]] } []
    rfl rfl (by decide) rfl rfl (fun _ => rfl) (by decide) rfl rfl

/-- Helper: with a falsy (unset or empty) secret, `create_short_lived_jwt`
fails with the configuration message. -/
theorem create_short_lived_jwt_err (secret : Option String) (h : falsy secret = true)
    (now : Nat) (sid : String) :
    create_short_lived_jwt secret now sid = .error "JWT_SECRET is not configured." := by
  simp [create_short_lived_jwt, h]

/-- C5: when the signing secret is unset (or empty) and the model proposed a
tool call, the request fails with a 500 whose detail carries the
configuration message, and the trace stops at credential issuance: no
`toolServiceCall` event occurs, so no network call to the tool-execution
service is attempted. -/
theorem c5_missing_secret_aborts
    (env : Env) (w : World) (req : UserRequest)
    (resp : ModelResp) (fc : FunctionCall) (rest : List FunctionCall)
    (hurl : falsy env.s2BaseUrl = false)
    (hsec : falsy env.jwtSecret = true)
    (hm1 : w.model1 req.user_prompt = .ok resp)
    (hfc : resp.function_calls = fc :: rest) :
    (process_request env w req).1
      = .error { status_code := 500
               , detail := "Internal Server Error: JWT_SECRET is not configured." }
    ∧ (process_request env w req).2
      = [Event.sessionCreate ("session-" ++ toString env.now),
         Event.firstModelCall req.user_prompt TOOLS,
         Event.credentialIssue ("session-" ++ toString env.now)] := by
  constructor <;>
    simp [process_request, hurl, create_short_lived_jwt_err env.jwtSecret hsec, hm1, hfc]

/-- Environment with the signing secret unset but the base URL configured. -/
def envNoSecret : Env := { jwtSecret := none, s2BaseUrl := some "http://s2.local", now := 100 }

/-- Witness for C5: concrete run with the secret unset. -/
theorem c5_witness :
    (process_request envNoSecret wTool reqCal).1
      = .error { status_code := 500
               , detail := "Internal Server Error: JWT_SECRET is not configured." }
    ∧ (process_request envNoSecret wTool reqCal).2
      = [Event.sessionCreate "session-100",
         Event.firstModelCall "What is on my calendar tomorrow?" TOOLS,
         Event.credentialIssue "session-100"] :=
  c5_missing_secret_aborts envNoSecret wTool reqCal respToolTurn fcCal [] rfl rfl rfl rfl

/-- C6: with a configured signing secret, issuing a credential for a
non-empty session id at epoch second `t` yields the token signed with
HMAC-SHA256 (`alg = "HS256"`) over the process-wide secret whose claims are
exactly `session_id`, `iat = t` and `exp = t + 60`. -/
theorem c6_credential_claims (s sid : String) (t : Nat) (hs : s ≠ "") (hsid : sid ≠ "") :
    create_short_lived_jwt (some s) t sid
      = .ok { payload := { session_id := sid, exp := t + 60, iat := t }
            , secret := s, alg := "HS256" } := by
  simp [create_short_lived_jwt, falsy, hs]

/-- Witness for C6 at concrete secret, session id and time. -/
theorem c6_witness :
    create_short_lived_jwt (some "topsecret") 100 "session-100"
      = .ok { payload := { session_id := "session-100", exp := 160, iat := 100 }
            , secret := "topsecret", alg := "HS256" } :=
  c6_credential_claims "topsecret" "session-100" 100 (by decide) (by decide)

/-- Counterexample to C7 as stated: `session_id` is
`"session-" ++ str(int(time.time()))`, so two distinct requests handled in
the same epoch second (here, different prompts at second 100) receive the
same `session_id` — it is not unique per request. -/
theorem c7_counterexample :
    reqCal ≠ reqMath
    ∧ (process_request envOk wTool reqCal).2.head?
        = some (Event.sessionCreate "session-100")
    ∧ (process_request envOk wDirect reqMath).2.head?
        = some (Event.sessionCreate "session-100") := by
  refine ⟨?_, rfl, rfl⟩
  intro h
  simp [reqCal, reqMath] at h

/-- Helper: whenever the base-URL guard passes, the trace starts with the
session-creation event for `"session-" ++ toString env.now`, whatever the
oracles do — the session id is derived from the epoch second alone. -/
theorem trace_starts_with_session (env : Env) (w : World) (req : UserRequest)
    (hurl : falsy env.s2BaseUrl = false) :
    (process_request env w req).2.head?
      = some (Event.sessionCreate ("session-" ++ toString env.now)) := by
  unfold process_request
  simp only [hurl, Bool.false_eq_true, if_false]
  repeat' split
  all_goals rfl

/-- C7 (amended): the session id is derived solely from the handling epoch
second, so any two requests handled in the same second share it (first two
conjuncts: both traces open with the same session id); and credentials
issued for two sessions with distinct `session_id` values never collide —
they carry distinct `session_id` claims and are distinct tokens (last two
conjuncts). -/
theorem c7_amended
    (env : Env) (w1 w2 : World) (req1 req2 : UserRequest)
    (s sid1 sid2 : String) (t1 t2 : Nat)
    (hurl : falsy env.s2BaseUrl = false)
    (hs : s ≠ "") (hsid : sid1 ≠ sid2) :
    (process_request env w1 req1).2.head?
        = some (Event.sessionCreate ("session-" ++ toString env.now))
    ∧ (process_request env w2 req2).2.head?
        = some (Event.sessionCreate ("session-" ++ toString env.now))
    ∧ Except.map (fun tok => tok.payload.session_id) (create_short_lived_jwt (some s) t1 sid1)
        ≠ Except.map (fun tok => tok.payload.session_id) (create_short_lived_jwt (some s) t2 sid2)
    ∧ create_short_lived_jwt (some s) t1 sid1 ≠ create_short_lived_jwt (some s) t2 sid2 := by
  refine ⟨trace_starts_with_session env w1 req1 hurl,
          trace_starts_with_session env w2 req2 hurl, ?_, ?_⟩ <;>
    simp [create_short_lived_jwt_ok s hs, Except.map, hsid]

/-- Witness for C7 (amended) at two concrete requests in the same second and
two concrete distinct session ids. -/
theorem c7_amended_witness :
    (process_request envOk wTool reqCal).2.head?
        = some (Event.sessionCreate "session-100")
    ∧ (process_request envOk wDirect reqMath).2.head?
        = some (Event.sessionCreate "session-100")
    ∧ Except.map (fun tok => tok.payload.session_id)
        (create_short_lived_jwt (some "topsecret") 100 "session-100")
        ≠ Except.map (fun tok => tok.payload.session_id)
            (create_short_lived_jwt (some "topsecret") 101 "session-101")
    ∧ create_short_lived_jwt (some "topsecret") 100 "session-100"
        ≠ create_short_lived_jwt (some "topsecret") 101 "session-101" :=
  c7_amended envOk wTool wDirect reqCal reqMath "topsecret" "session-100" "session-101"
    100 101 rfl (by decide) (by decide)

/-- C8: a successful S2 response whose JSON-object body lacks a `result`
field is treated as success with a null result — the pipeline continues to
the follow-up model call and the 200 response carries `tool_result = null`
(the key present with value `None`). -/
theorem c8_missing_result_tolerated
    (env : Env) (w : World) (req : UserRequest) (s : String)
    (resp : ModelResp) (fc : FunctionCall) (rest : List FunctionCall)
    (r : S2Response) (o : List (String × Json)) (c : Content) (cs : List Content)
    (resp2 : ModelResp)
    (hurl : falsy env.s2BaseUrl = false)
    (hsec : env.jwtSecret = some s) (hs : s ≠ "")
    (hm1 : w.model1 req.user_prompt = .ok resp)
    (hfc : resp.function_calls = fc :: rest)
    (hs2 : ∀ tok, w.s2 tok fc.name fc.args = .ok r)
    (hst : r.status_code < 400)
    (hjb : r.jsonBody = some (Json.obj o))
    (hres : jlookup "result" o = none)
    (hcand : resp.candidates = c :: cs)
    (hm2 : ∀ contents, w.model2 contents = .ok resp2) :
    (process_request env w req).1
      = .ok { message := "Tool executed via S2, final answer generated by LLM."
            , action := "Called S2 for tool: " ++ fc.name
            , tool_result := some Json.null
            , llm_result := resp2.text }
    ∧ (process_request env w req).2
      = [Event.sessionCreate ("session-" ++ toString env.now),
         Event.firstModelCall req.user_prompt TOOLS,
         Event.credentialIssue ("session-" ++ toString env.now),
         Event.toolServiceCall fc.name fc.args
           { payload := { session_id := "session-" ++ toString env.now
                        , exp := env.now + 60, iat := env.now }
           , secret := s, alg := "HS256" },
         Event.followupModelCall
           (followup_contents req.user_prompt c fc.name Json.null) []] := by
  have hnot : ¬ (400 ≤ r.status_code ∧ r.status_code < 600) := by omega
  constructor <;>
    simp [process_request, hurl, hsec, create_short_lived_jwt_ok s hs,
          hm1, hfc, hs2, hnot, hjb, hres, hcand, hm2]

/-- Witness for C8: concrete run whose S2 body is `\x7b"status": "ok"\x7d`
(no result field). -/
theorem c8_witness :
    (process_request envOk wNoResult reqCal).1
      = .ok { message := "Tool executed via S2, final answer generated by LLM."
            , action := "Called S2 for tool: get_google_calendar_events"
            , tool_result := some Json.null
            , llm_result := some "You have Standup at 9am." }
    ∧ (process_request envOk wNoResult reqCal).2
      = [Event.sessionCreate "session-100",
         Event.firstModelCall "What is on my calendar tomorrow?" TOOLS,
         Event.credentialIssue "session-100",
         Event.toolServiceCall "get_google_calendar_events" [("date", Json.str "tomorrow")]
           { payload := { session_id := "session-100", exp := 160, iat := 100 }
           , secret := "topsecret", alg := "HS256" },
         Event.followupModelCall
           (followup_contents "What is on my calendar tomorrow?"
             { role := "model"
             , parts := [ContentPart.functionCall "get_google_calendar_events"
                           [("date", Json.str "tomorrow")]] }
             "get_google_calendar_events" Json.null) []] :=
  c8_missing_result_tolerated envOk wNoResult reqCal "topsecret"
    respToolTurn fcCal [] s2NoResult [("status", Json.str "ok")]
    { role := "model"
    , parts := [ContentPart.functionCall "get_google_calendar_events"
                  [("date", Json.str "tomorrow")]] } []
    respFinalTurn rfl rfl (by decide) rfl rfl (fun _ => rfl) (by decide) rfl rfl rfl
    (fun _ => rfl)

/-- Counterexample to C9 as stated: a body carrying the empty string for
`user_prompt` is not rejected — pydantic declares `user_prompt: str` with no
non-empty constraint — so it passes validation, reaches the model (the
trace records the first model call with the empty prompt) and receives a
200 response. -/
theorem c9_counterexample :
    parseUserRequest (Json.obj [("user_prompt", Json.str "")]) = .ok { user_prompt := "" }
    ∧ (handle_api_process envOk wDirect (Json.obj [("user_prompt", Json.str "")])).1
        = .ok { message := "Answer provided directly by LLM."
              , action := "Direct LLM Response"
              , tool_result := none
              , llm_result := some "4" }
    ∧ (handle_api_process envOk wDirect (Json.obj [("user_prompt", Json.str "")])).2
        = [Event.sessionCreate "session-100", Event.firstModelCall "" TOOLS] :=
  ⟨rfl, rfl, rfl⟩

/-- C9 (amended): a body that omits `user_prompt` (a JSON object with no
such key) is rejected by validation with a 422 before the handler runs: no
event occurs, so the request never reaches the model and gets no 200
response.  (An empty `user_prompt` string, by contrast, is accepted.) -/
theorem c9_amended_missing_field_rejected
    (env : Env) (w : World) (o : List (String × Json))
    (h : jlookup "user_prompt" o = none) :
    (handle_api_process env w (Json.obj o)).1
      = .error { status_code := 422, detail := "Field required: user_prompt (string)" }
    ∧ (handle_api_process env w (Json.obj o)).2 = [] := by
  constructor <;> simp [handle_api_process, parseUserRequest, h]

/-- Witness for C9 (amended): the empty JSON object body. -/
theorem c9_amended_witness :
    (handle_api_process envOk wDirect (Json.obj [])).1
      = .error { status_code := 422, detail := "Field required: user_prompt (string)" }
    ∧ (handle_api_process envOk wDirect (Json.obj [])).2 = [] :=
  c9_amended_missing_field_rejected envOk wDirect [] rfl

/-- C10: when `S2_BASE_URL` is unset (or empty), every request fails
immediately with a 500 naming the missing configuration, and the trace is
empty — no session is created, the model is never contacted and no external
call is made. -/
theorem c10_missing_base_url
    (env : Env) (w : World) (req : UserRequest)
    (h : falsy env.s2BaseUrl = true) :
    (process_request env w req).1
      = .error { status_code := 500
               , detail := "Server configuration is incomplete (S2_BASE_URL)." }
    ∧ (process_request env w req).2 = [] := by
  constructor <;> simp [process_request, h]

/-- Environment with the base URL unset. -/
def envNoUrl : Env := { jwtSecret := some "topsecret", s2BaseUrl := none, now := 100 }

/-- Witness for C10: concrete run with the base URL unset. -/
theorem c10_witness :
    (process_request envNoUrl wTool reqCal).1
      = .error { status_code := 500
               , detail := "Server configuration is incomplete (S2_BASE_URL)." }
    ∧ (process_request envNoUrl wTool reqCal).2 = [] :=
  c10_missing_base_url envNoUrl wTool reqCal rfl
